import Mathlib

set_option maxHeartbeats 1000000

/-
Shallow embedding of `libs/cli/deepagents_cli/providers/bedrock.py`.

The module reads process environment variables into an immutable
`BedrockEnv` record (`_read_env`) and builds a chat-model client handle
from that record plus a model-name string (`create_bedrock_model`).

Modelling conventions:
  * a process environment is a partial map `String → Option String`;
  * Python exceptions are modelled with `Except PyErr`; the raising
    builtins (`int`, `float`, `json.loads`) are embedded as functions
    into `Option`/`Except`, and every `try/except` of the source appears
    as an explicit `match` on the error constructor it catches;
  * Python floats are modelled exactly: a parsed decimal literal becomes
    a rational, and the special values `inf`/`-inf`/`nan` are separate
    constructors (`PyFloat`); no IEEE rounding is modelled, which is
    observationally irrelevant here because the module never computes
    with the parsed numbers;
  * `str.lower`, `str.strip` and the `int`/`float` literal grammars are
    modelled over ASCII (the source is only ever exercised with ASCII
    variable values; Unicode case folding and exotic digits are out of
    scope of this development);
  * the JSON grammar follows RFC 8259 (the source calls `json.loads` and
    immediately discards any result that is not a list of strings, so
    the `NaN/Infinity` extensions of the Python decoder, which can never
    be strings, are observationally irrelevant and are omitted).
-/

namespace BedrockProvider

/-- A process environment: maps a variable name to its value when set. -/
abbrev Env := String → Option String

/-- The Python exceptions relevant to this module. `json.JSONDecodeError`
is a subclass of `ValueError`, so an `except ValueError` clause catches
both constructors while `except json.JSONDecodeError` catches only the
second. -/
inductive PyErr where
  | valueError : PyErr
  | jsonDecodeError : PyErr
deriving DecidableEq

/-- Whitespace characters recognised by Python `str.strip()` (ASCII part). -/
def pyWs (c : Char) : Bool :=
  c == ' ' || c == '\t' || c == '\n' || c == '\r' || c.toNat == 11 || c.toNat == 12

/-- Model of Python `str.strip()` on a character list. -/
def stripChars (cs : List Char) : List Char :=
  ((cs.dropWhile pyWs).reverse.dropWhile pyWs).reverse

/-- Model of Python `str.strip()`. -/
def pyStrip (s : String) : String := ⟨stripChars s.data⟩

/-- Model of Python `str.lower()` on one character (ASCII). -/
def pyLowerChar : Char → Char
  | 'A' => 'a' | 'B' => 'b' | 'C' => 'c' | 'D' => 'd' | 'E' => 'e'
  | 'F' => 'f' | 'G' => 'g' | 'H' => 'h' | 'I' => 'i' | 'J' => 'j'
  | 'K' => 'k' | 'L' => 'l' | 'M' => 'm' | 'N' => 'n' | 'O' => 'o'
  | 'P' => 'p' | 'Q' => 'q' | 'R' => 'r' | 'S' => 's' | 'T' => 't'
  | 'U' => 'u' | 'V' => 'v' | 'W' => 'w' | 'X' => 'x' | 'Y' => 'y'
  | 'Z' => 'z'
  | c => c

/-- Model of Python `str.lower()` (ASCII). -/
def pyLower (s : String) : String := ⟨s.data.map pyLowerChar⟩

/-- Model of Python `str.startswith` on character lists: first argument is
the string, second the candidate prefix. -/
def hasPrefixChars : List Char → List Char → Bool
  | _, [] => true
  | [], _ :: _ => false
  | c :: cs, p :: ps => decide (c = p) && hasPrefixChars cs ps

/-- Splits at the first occurrence of `sep`: returns the characters before
it and the characters after it, or `none` when `sep` does not occur.
Model of `s.split(sep, 1)` when the separator is present. -/
def pySplitFirst (sep : Char) : List Char → Option (List Char × List Char)
  | [] => none
  | c :: cs =>
    if c = sep then some ([], cs)
    else (pySplitFirst sep cs).map (fun q => (c :: q.1, q.2))

/-- Model of Python `s.split(sep)` for a one-character separator: the empty
string splits to `[""]`, and `n` separators produce `n + 1` parts. -/
def pySplitChar (sep : Char) : List Char → List (List Char)
  | [] => [[]]
  | c :: cs =>
    match pySplitChar sep cs with
    | [] => [[]]
    | p :: ps => if c = sep then [] :: p :: ps else (c :: p) :: ps

/-- The list comprehension `[p.strip() for p in value.split(sep) if p.strip()]`:
split, strip each part, drop the parts that strip to empty. -/
def splitParts (sep : Char) (cs : List Char) : List String :=
  ((pySplitChar sep cs).map stripChars).filterMap
    (fun p => if p = [] then none else some ⟨p⟩)

/-- Optional leading sign of a numeric literal: returns whether the value is
negated and the remaining characters. -/
def splitSign : List Char → Bool × List Char
  | '+' :: cs => (false, cs)
  | '-' :: cs => (true, cs)
  | cs => (false, cs)

/-- Digit run with single underscores allowed between digits, as in Python
numeric literals: returns the accumulated value and total digit count, or
`none` when a character is neither a digit nor a well-placed underscore. -/
def digitsRunAux (acc : Nat) (cnt : Nat) : List Char → Option (Nat × Nat)
  | [] => some (acc, cnt)
  | '_' :: c :: cs =>
    if c.isDigit then digitsRunAux (acc * 10 + (c.toNat - 48)) (cnt + 1) cs else none
  | c :: cs =>
    if c.isDigit then digitsRunAux (acc * 10 + (c.toNat - 48)) (cnt + 1) cs else none

/-- A non-empty digit run that starts with a digit (never an underscore). -/
def digitsRun : List Char → Option (Nat × Nat)
  | [] => none
  | '_' :: _ => none
  | c :: cs => if c.isDigit then digitsRunAux (c.toNat - 48) 1 cs else none

/-- Model of the Python builtin `int(s)` for base 10: strip whitespace,
optional sign, digits with embedded single underscores. `none` models a
raised `ValueError`. -/
def pyIntOpt (s : String) : Option Int :=
  match stripChars s.data with
  | [] => none
  | cs =>
    let (neg, body) := splitSign cs
    (digitsRun body).map (fun p => if neg then -(p.1 : Int) else (p.1 : Int))

/-- The raising form of `int(s)`: a failed parse raises `ValueError`. -/
def pyInt (s : String) : Except PyErr Int :=
  match pyIntOpt s with
  | some n => Except.ok n
  | none => Except.error PyErr.valueError

/-- A Python float value: an exact rational for finite values, plus the
three special values. -/
inductive PyFloat where
  | finite (q : Rat) : PyFloat
  | inf : PyFloat
  | negInf : PyFloat
  | nan : PyFloat
deriving DecidableEq

/-- Splits at the first exponent marker `e`/`E` of a float literal. -/
def splitAtExp : List Char → Option (List Char × List Char)
  | [] => none
  | c :: cs =>
    if c = 'e' ∨ c = 'E' then some ([], cs)
    else (splitAtExp cs).map (fun q => (c :: q.1, q.2))

/-- Exponent part of a float literal: optional sign then a digit run. -/
def parseExpPart (cs : List Char) : Option Int :=
  match cs with
  | '+' :: r => (digitsRun r).map (fun p => (p.1 : Int))
  | '-' :: r => (digitsRun r).map (fun p => -(p.1 : Int))
  | r => (digitsRun r).map (fun p => (p.1 : Int))

/-- Scales a rational by a power of ten. -/
def scalePow10 (q : Rat) (e : Int) : Rat :=
  if 0 ≤ e then q * (10 : Rat) ^ e.toNat else q / (10 : Rat) ^ (-e).toNat

/-- Mantissa of a float literal: integer part and/or fractional part around
an optional dot, at least one digit overall. -/
def parseMantissa (cs : List Char) : Option Rat :=
  match pySplitFirst '.' cs with
  | some (ip, fp) =>
    match ip, fp with
    | [], [] => none
    | [], _ =>
      (digitsRun fp).map (fun p => (p.1 : Rat) / (10 : Rat) ^ p.2)
    | _, [] =>
      (digitsRun ip).map (fun p => (p.1 : Rat))
    | _, _ =>
      match digitsRun ip, digitsRun fp with
      | some i, some f => some ((i.1 : Rat) + (f.1 : Rat) / (10 : Rat) ^ f.2)
      | _, _ => none
  | none => (digitsRun cs).map (fun p => (p.1 : Rat))

/-- Finite-literal body of `float(s)` after the sign: mantissa with optional
exponent. -/
def parseFloatBody (cs : List Char) : Option Rat :=
  match splitAtExp cs with
  | some (m, e) =>
    match parseMantissa m, parseExpPart e with
    | some q, some ex => some (scalePow10 q ex)
    | _, _ => none
  | none => parseMantissa cs

/-- Model of the Python builtin `float(s)`: strip whitespace, optional sign,
then `inf`/`infinity`/`nan` (case-insensitive) or a decimal literal.
`none` models a raised `ValueError`. -/
def pyFloatOpt (s : String) : Option PyFloat :=
  match stripChars s.data with
  | [] => none
  | cs =>
    let (neg, body) := splitSign cs
    let lowered := body.map pyLowerChar
    if lowered = "inf".data ∨ lowered = "infinity".data then
      some (if neg then PyFloat.negInf else PyFloat.inf)
    else if lowered = "nan".data then some PyFloat.nan
    else (parseFloatBody body).map
      (fun q => PyFloat.finite (if neg then -q else q))

/-- The raising form of `float(s)`. -/
def pyFloat (s : String) : Except PyErr PyFloat :=
  match pyFloatOpt s with
  | some f => Except.ok f
  | none => Except.error PyErr.valueError

/-- Python truthiness of a float: only (positive or negative) zero is falsy;
`inf` and `nan` are truthy. -/
def pyTruthy : PyFloat → Bool
  | PyFloat.finite q => decide (q ≠ 0)
  | _ => true

/-- Python `a or b` for an optional float `a`: `None` and `0.0` fall through
to `b`; any truthy value is kept. -/
def pyOrFloat (a : Option PyFloat) (b : PyFloat) : PyFloat :=
  match a with
  | none => b
  | some f => if pyTruthy f then f else b

/-- Python `a or b` for an optional string `a`: `None` and `""` fall through
to `b` (note: a whitespace-only string is truthy and is kept). -/
def pyOrStr (a : Option String) (b : String) : String :=
  match a with
  | none => b
  | some s => if s = "" then b else s

/-! ## JSON (model of `json.loads`, RFC 8259 grammar) -/

/-- A parsed JSON value. -/
inductive Json where
  | null : Json
  | bool (b : Bool) : Json
  | num (q : Rat) : Json
  | str (s : String) : Json
  | arr (xs : List Json) : Json
  | obj (kvs : List (String × Json)) : Json

/-- JSON insignificant whitespace. -/
def jsonWs (c : Char) : Bool := c == ' ' || c == '\t' || c == '\n' || c == '\r'

/-- Drops leading JSON whitespace. -/
def skipJsonWs (cs : List Char) : List Char := cs.dropWhile jsonWs

/-- Value of one hexadecimal digit. -/
def hexDigitVal (c : Char) : Option Nat :=
  if c.isDigit then some (c.toNat - 48)
  else if 'a' ≤ c ∧ c ≤ 'f' then some (c.toNat - 87)
  else if 'A' ≤ c ∧ c ≤ 'F' then some (c.toNat - 55)
  else none

/-- Single-character JSON escapes. -/
def jsonEscChar : Char → Option Char
  | '"' => some '"'
  | '\\' => some '\\'
  | '/' => some '/'
  | 'b' => some (Char.ofNat 8)
  | 'f' => some (Char.ofNat 12)
  | 'n' => some '\n'
  | 'r' => some '\r'
  | 't' => some '\t'
  | _ => none

/-- Body of a JSON string after the opening quote: returns the decoded
characters and the input after the closing quote. Unescaped control
characters are rejected (the decoder's default strict mode). -/
def parseJsonStr : List Char → Option (List Char × List Char)
  | [] => none
  | '"' :: rest => some ([], rest)
  | '\\' :: 'u' :: h1 :: h2 :: h3 :: h4 :: rest =>
    (match hexDigitVal h1, hexDigitVal h2, hexDigitVal h3, hexDigitVal h4 with
     | some a, some b, some c, some d =>
       (parseJsonStr rest).map
         (fun p => (Char.ofNat (((a * 16 + b) * 16 + c) * 16 + d) :: p.1, p.2))
     | _, _, _, _ => none)
  | '\\' :: e :: rest =>
    (match jsonEscChar e with
     | some c => (parseJsonStr rest).map (fun p => (c :: p.1, p.2))
     | none => none)
  | c :: rest =>
    if c.toNat < 32 then none
    else (parseJsonStr rest).map (fun p => (c :: p.1, p.2))

/-- Numeric value of a digit list (most significant first). -/
def digitsVal (ds : List Char) : Nat :=
  ds.foldl (fun a c => a * 10 + (c.toNat - 48)) 0

/-- A JSON number: optional minus, integer part without leading zeros,
optional fraction, optional exponent. Returns the exact rational value and
the remaining input. -/
def parseJsonNum (cs0 : List Char) : Option (Rat × List Char) :=
  let (neg, cs1) := match cs0 with | '-' :: t => (true, t) | _ => (false, cs0)
  let ids := cs1.takeWhile Char.isDigit
  let cs2 := cs1.dropWhile Char.isDigit
  if ids = [] then none
  else if 1 < ids.length ∧ ids.headD '0' = '0' then none
  else
    let withFrac : Option (Rat × List Char) :=
      match cs2 with
      | '.' :: cs3 =>
        let fds := cs3.takeWhile Char.isDigit
        let cs4 := cs3.dropWhile Char.isDigit
        if fds = [] then none
        else some ((digitsVal ids : Rat) + (digitsVal fds : Rat) / (10 : Rat) ^ fds.length, cs4)
      | _ => some ((digitsVal ids : Rat), cs2)
    match withFrac with
    | none => none
    | some (q, cs5) =>
      let withExp : Option (Rat × List Char) :=
        match cs5 with
        | 'e' :: cs6 | 'E' :: cs6 =>
          let (eneg, cs7) := match cs6 with
            | '+' :: t => (false, t)
            | '-' :: t => (true, t)
            | t => (false, t)
          let eds := cs7.takeWhile Char.isDigit
          let cs8 := cs7.dropWhile Char.isDigit
          if eds = [] then none
          else some (scalePow10 q (if eneg then -(digitsVal eds : Int) else (digitsVal eds : Int)), cs8)
        | _ => some (q, cs5)
      withExp.map (fun p => (if neg then -p.1 else p.1, p.2))

/-- Work items of the fuel-indexed JSON parser: a value, the items of an
array (with the elements parsed so far), or the members of an object. -/
inductive JsonTask where
  | value : JsonTask
  | items (acc : List Json) : JsonTask
  | members (acc : List (String × Json)) : JsonTask

/-- One fuel-indexed recursive parser for values, array items and object
members; structural on the fuel so that it evaluates in the kernel. The
`items`/`members` tasks are entered after the opening bracket when the
collection is non-empty, and consume through the closing bracket. -/
def parseJsonCore : Nat → JsonTask → List Char → Option (Json × List Char)
  | 0, _, _ => none
  | fuel + 1, JsonTask.value, cs =>
    (match skipJsonWs cs with
     | 'n' :: 'u' :: 'l' :: 'l' :: rest => some (Json.null, rest)
     | 't' :: 'r' :: 'u' :: 'e' :: rest => some (Json.bool true, rest)
     | 'f' :: 'a' :: 'l' :: 's' :: 'e' :: rest => some (Json.bool false, rest)
     | '"' :: rest => (parseJsonStr rest).map (fun p => (Json.str ⟨p.1⟩, p.2))
     | '[' :: rest =>
       (match skipJsonWs rest with
        | ']' :: rest2 => some (Json.arr [], rest2)
        | _ => parseJsonCore fuel (JsonTask.items []) rest)
     | '{' :: rest =>
       (match skipJsonWs rest with
        | '}' :: rest2 => some (Json.obj [], rest2)
        | _ => parseJsonCore fuel (JsonTask.members []) rest)
     | other => (parseJsonNum other).map (fun p => (Json.num p.1, p.2)))
  | fuel + 1, JsonTask.items acc, cs =>
    (match parseJsonCore fuel JsonTask.value cs with
     | none => none
     | some (v, rest) =>
       match skipJsonWs rest with
       | ',' :: rest2 => parseJsonCore fuel (JsonTask.items (acc ++ [v])) rest2
       | ']' :: rest2 => some (Json.arr (acc ++ [v]), rest2)
       | _ => none)
  | fuel + 1, JsonTask.members acc, cs =>
    (match skipJsonWs cs with
     | '"' :: rest =>
       (match parseJsonStr rest with
        | none => none
        | some (key, rest1) =>
          match skipJsonWs rest1 with
          | ':' :: rest2 =>
            (match parseJsonCore fuel JsonTask.value rest2 with
             | none => none
             | some (v, rest3) =>
               match skipJsonWs rest3 with
               | ',' :: rest4 => parseJsonCore fuel (JsonTask.members (acc ++ [(⟨key⟩, v)])) rest4
               | '}' :: rest4 => some (Json.obj (acc ++ [(⟨key⟩, v)]), rest4)
               | _ => none)
          | _ => none)
     | _ => none)

/-- Model of `json.loads`: parse one value, then require only whitespace to
remain. A failure models a raised `json.JSONDecodeError`. -/
def json_loads (s : String) : Except PyErr Json :=
  match parseJsonCore (2 * s.data.length + 4) JsonTask.value s.data with
  | none => Except.error PyErr.jsonDecodeError
  | some (v, rest) =>
    if skipJsonWs rest = [] then Except.ok v else Except.error PyErr.jsonDecodeError

/-- The check `all(isinstance(x, str) for x in data)` together with the
extraction of the string payloads: `some` exactly when every element is a
JSON string. -/
def allStrings : List Json → Option (List String)
  | [] => some []
  | Json.str s :: rest => (allStrings rest).map (fun t => s :: t)
  | _ :: _ => none

/-- The acceptance test of the JSON branch of `_parse_list_env`:
`isinstance(data, list) and all(isinstance(x, str) for x in data)`,
returning the list of strings when it passes. -/
def asStrList : Json → Option (List String)
  | Json.arr xs => allStrings xs
  | _ => none

/-! ## The per-variable parse helpers of the source -/

/-- `_parse_int_env(var_name, default)`: unset or blank yields the default;
otherwise `int(value)`, with `except ValueError` (which also covers its
subclass `json.JSONDecodeError`) yielding the default. -/
def _parse_int_env (env : Env) (var_name : String) (default : Int) : Except PyErr Int :=
  match env var_name with
  | none => Except.ok default
  | some value =>
    if pyStrip value = "" then Except.ok default
    else
      match pyInt value with
      | Except.ok n => Except.ok n
      | Except.error PyErr.valueError => Except.ok default
      | Except.error PyErr.jsonDecodeError => Except.ok default

/-- `_parse_optional_int_env(var_name)`: unset, blank or invalid yields
`None`. -/
def _parse_optional_int_env (env : Env) (var_name : String) : Except PyErr (Option Int) :=
  match env var_name with
  | none => Except.ok none
  | some value =>
    if pyStrip value = "" then Except.ok none
    else
      match pyInt value with
      | Except.ok n => Except.ok (some n)
      | Except.error PyErr.valueError => Except.ok none
      | Except.error PyErr.jsonDecodeError => Except.ok none

/-- `_parse_float_env(var_name)`: unset, blank or invalid yields `None`. -/
def _parse_float_env (env : Env) (var_name : String) : Except PyErr (Option PyFloat) :=
  match env var_name with
  | none => Except.ok none
  | some value =>
    if pyStrip value = "" then Except.ok none
    else
      match pyFloat value with
      | Except.ok f => Except.ok (some f)
      | Except.error PyErr.valueError => Except.ok none
      | Except.error PyErr.jsonDecodeError => Except.ok none

/-- `_parse_list_env(var_name)`: unset or blank yields `None`; a stripped
value starting with `[` goes through `json.loads` (catching only
`json.JSONDecodeError`) and is kept exactly when it is a list of strings;
any other value is split on `|` when one occurs, else on `,`, each part
stripped and empty parts dropped, an empty result yielding `None`. -/
def _parse_list_env (env : Env) (var_name : String) : Except PyErr (Option (List String)) :=
  match env var_name with
  | none => Except.ok none
  | some value0 =>
    if pyStrip value0 = "" then Except.ok none
    else
      let value := pyStrip value0
      if hasPrefixChars value.data "[".data then
        match json_loads value with
        | Except.error PyErr.jsonDecodeError => Except.ok none
        | Except.error PyErr.valueError => Except.error PyErr.valueError
        | Except.ok data =>
          match asStrList data with
          | some xs => Except.ok (some xs)
          | none => Except.ok none
      else
        let parts :=
          if value.data.contains '|' then splitParts '|' value.data
          else splitParts ',' value.data
        Except.ok (if parts = [] then none else some parts)

/-- `_parse_bool_env(var_name)`: unset or blank yields `None`; the stripped,
lowered value is matched against a truthy and a falsy set; anything else
yields `None`. This helper calls no raising builtin, so it is total. -/
def _parse_bool_env (env : Env) (var_name : String) : Option Bool :=
  match env var_name with
  | none => none
  | some value0 =>
    if pyStrip value0 = "" then none
    else
      let value := pyLower (pyStrip value0)
      if value ∈ (["1", "true", "yes", "on", "enabled"] : List String) then some true
      else if value ∈ (["0", "false", "no", "off", "disabled"] : List String) then some false
      else none

/-- `_normalize_model_id(model_name)`: when the lowered name starts with
`"bedrock:"`, keep what follows the first `:` of the original name
(`model_id.split(":", 1)[1]`); otherwise the name is used verbatim. The
`none` branch of the split is unreachable because the matched prefix
contains a `:`. -/
def _normalize_model_id (model_name : String) : String :=
  if hasPrefixChars (model_name.data.map pyLowerChar) "bedrock:".data then
    match pySplitFirst ':' model_name.data with
    | some p => ⟨p.2⟩
    | none => model_name
  else model_name

/-! ## The configuration record and `_read_env` -/

/-- The frozen dataclass `BedrockEnv`. -/
structure BedrockEnv where
  retry_mode : String
  max_attempts : Int
  max_pool_connections : Int
  requests_per_second : Option PyFloat
  max_bucket_size : Option PyFloat
  temperature : Option PyFloat
  max_tokens : Int
  top_p : Option PyFloat
  top_k : Option Int
  stop_sequences : Option (List String)
  thinking_enabled : Bool
  thinking_budget : Int
deriving DecidableEq

/-- `_read_env()`: reads the thirteen-plus-one recognised variables in source
order. `retry_mode` is `os.environ.get("BEDROCK_RETRY_MODE") or
os.environ.get("AWS_RETRY_MODE", "adaptive")`; `max_attempts` passes the
default-aware parse of `AWS_MAX_ATTEMPTS` as the default of the
`BEDROCK_MAX_ATTEMPTS` parse; `thinking_enabled` is
`bool(_parse_bool_env("BEDROCK_THINKING"))`, so an absent optional boolean
becomes `false`. -/
def _read_env (env : Env) : Except PyErr BedrockEnv :=
  let retry_mode := pyOrStr (env "BEDROCK_RETRY_MODE") ((env "AWS_RETRY_MODE").getD "adaptive")
  Except.bind (_parse_int_env env "AWS_MAX_ATTEMPTS" 3) fun aws_max_attempts =>
  Except.bind (_parse_int_env env "BEDROCK_MAX_ATTEMPTS" aws_max_attempts) fun max_attempts =>
  Except.bind (_parse_int_env env "BEDROCK_MAX_POOL_CONNECTIONS" 10) fun max_pool_connections =>
  Except.bind (_parse_float_env env "DEEPAGENTS_BEDROCK_RPS") fun requests_per_second =>
  Except.bind (_parse_float_env env "DEEPAGENTS_BEDROCK_BURST") fun max_bucket_size =>
  Except.bind (_parse_float_env env "BEDROCK_TEMPERATURE") fun temperature =>
  Except.bind (_parse_int_env env "BEDROCK_MAX_TOKENS" 1024) fun max_tokens =>
  Except.bind (_parse_float_env env "BEDROCK_TOP_P") fun top_p =>
  Except.bind (_parse_optional_int_env env "BEDROCK_TOP_K") fun top_k =>
  Except.bind (_parse_list_env env "BEDROCK_STOP") fun stop_sequences =>
  let thinking_enabled := (_parse_bool_env env "BEDROCK_THINKING").getD false
  Except.bind (_parse_int_env env "BEDROCK_THINKING_BUDGET" 4096) fun thinking_budget =>
  Except.ok ⟨retry_mode, max_attempts, max_pool_connections, requests_per_second,
    max_bucket_size, temperature, max_tokens, top_p, top_k, stop_sequences,
    thinking_enabled, thinking_budget⟩

/-! ## The client builder `create_bedrock_model` -/

/-- The collaborator `InMemoryRateLimiter`, recorded by its two constructor
arguments. -/
structure InMemoryRateLimiter where
  requests_per_second : PyFloat
  max_bucket_size : PyFloat
deriving DecidableEq

/-- The nested thinking descriptor
`{"type": "enabled", "budget_tokens": env.thinking_budget}`. -/
structure ThinkingParams where
  type : String
  budget_tokens : Int
deriving DecidableEq

/-- The `model_kwargs` dict: each key is present or absent. -/
structure ModelKwargs where
  top_p : Option PyFloat
  top_k : Option Int
  thinking : Option ThinkingParams
deriving DecidableEq

/-- A dict with no keys is falsy, so `model_kwargs or None` replaces it by
`None`. -/
def ModelKwargs.isEmpty (k : ModelKwargs) : Bool :=
  k.top_p.isNone && k.top_k.isNone && k.thinking.isNone

/-- The collaborator `BotocoreConfig`, recorded by its constructor
arguments. -/
structure BotocoreConfig where
  retry_mode : String
  max_attempts : Int
  max_pool_connections : Int
deriving DecidableEq

/-- The collaborator `ChatBedrock`, recorded by its constructor arguments in
source order. -/
structure ChatBedrock where
  model_id : String
  config : BotocoreConfig
  rate_limiter : Option InMemoryRateLimiter
  temperature : Option PyFloat
  max_tokens : Int
  stop : Option (List String)
  model_kwargs : Option ModelKwargs
deriving DecidableEq

/-- The `top_p` entry of the extra-parameters dict (absent when the dict
itself was empty and therefore replaced by `None`). -/
def ChatBedrock.kw_top_p (m : ChatBedrock) : Option PyFloat :=
  match m.model_kwargs with
  | some k => k.top_p
  | none => none

/-- The `top_k` entry of the extra-parameters dict. -/
def ChatBedrock.kw_top_k (m : ChatBedrock) : Option Int :=
  match m.model_kwargs with
  | some k => k.top_k
  | none => none

/-- The `thinking` entry of the extra-parameters dict. -/
def ChatBedrock.kw_thinking (m : ChatBedrock) : Option ThinkingParams :=
  match m.model_kwargs with
  | some k => k.thinking
  | none => none

/-- The body of `create_bedrock_model` after the environment read: model-id
normalisation, the three ordered conflict-resolution steps (the rebindings
shadow, exactly as the Python assignments do), rate-limiter construction
with `env.max_bucket_size or env.requests_per_second`, the extra-parameters
dict, the transport config, and the final constructor call. -/
def _build_chat_bedrock (env : BedrockEnv) (model_name : String) : ChatBedrock :=
  let model_id := _normalize_model_id model_name
  let temperature := env.temperature
  let top_p := env.top_p
  let top_k := env.top_k
  let temperature :=
    if temperature = none ∧ top_p = none then some (PyFloat.finite ((3 : Rat) / 10))
    else temperature
  let top_p := if temperature ≠ none ∧ top_p ≠ none then none else top_p
  let (temperature, top_p, top_k) :=
    if env.thinking_enabled then (some (PyFloat.finite 1), none, none)
    else (temperature, top_p, top_k)
  let rate_limiter : Option InMemoryRateLimiter :=
    match env.requests_per_second with
    | none => none
    | some rps => some ⟨rps, pyOrFloat env.max_bucket_size rps⟩
  let model_kwargs : ModelKwargs :=
    ⟨top_p, top_k,
     if env.thinking_enabled then some ⟨"enabled", env.thinking_budget⟩ else none⟩
  let bedrock_config : BotocoreConfig :=
    ⟨env.retry_mode, env.max_attempts, env.max_pool_connections⟩
  ⟨model_id, bedrock_config, rate_limiter, temperature, env.max_tokens,
   env.stop_sequences,
   if model_kwargs.isEmpty then none else some model_kwargs⟩

/-- `create_bedrock_model(model_name)`: read the environment, then build the
client handle. -/
def create_bedrock_model (env : Env) (model_name : String) : Except PyErr ChatBedrock :=
  Except.bind (_read_env env) fun e => Except.ok (_build_chat_bedrock e model_name)

/-! ## Value characterisations of the parse helpers

Each `_parse_*_env` helper catches every exception its body can raise, so
it always succeeds; the following total functions give the value it
succeeds with, and the lemmas below prove the correspondence. -/

/-- The value `_parse_int_env` returns. -/
def intEnvValue (env : Env) (var_name : String) (default : Int) : Int :=
  match env var_name with
  | none => default
  | some value =>
    if pyStrip value = "" then default else (pyIntOpt value).getD default

/-- The value `_parse_optional_int_env` returns. -/
def optIntEnvValue (env : Env) (var_name : String) : Option Int :=
  match env var_name with
  | none => none
  | some value => if pyStrip value = "" then none else pyIntOpt value

/-- The value `_parse_float_env` returns. -/
def floatEnvValue (env : Env) (var_name : String) : Option PyFloat :=
  match env var_name with
  | none => none
  | some value => if pyStrip value = "" then none else pyFloatOpt value

/-- The value `_parse_list_env` returns. -/
def listEnvValue (env : Env) (var_name : String) : Option (List String) :=
  match env var_name with
  | none => none
  | some value0 =>
    if pyStrip value0 = "" then none
    else
      let value := pyStrip value0
      if hasPrefixChars value.data "[".data then
        match json_loads value with
        | Except.ok data => asStrList data
        | Except.error _ => none
      else
        let parts :=
          if value.data.contains '|' then splitParts '|' value.data
          else splitParts ',' value.data
        if parts = [] then none else some parts

/-- The record `_read_env` returns. -/
def readEnvFun (env : Env) : BedrockEnv :=
  ⟨pyOrStr (env "BEDROCK_RETRY_MODE") ((env "AWS_RETRY_MODE").getD "adaptive"),
   intEnvValue env "BEDROCK_MAX_ATTEMPTS" (intEnvValue env "AWS_MAX_ATTEMPTS" 3),
   intEnvValue env "BEDROCK_MAX_POOL_CONNECTIONS" 10,
   floatEnvValue env "DEEPAGENTS_BEDROCK_RPS",
   floatEnvValue env "DEEPAGENTS_BEDROCK_BURST",
   floatEnvValue env "BEDROCK_TEMPERATURE",
   intEnvValue env "BEDROCK_MAX_TOKENS" 1024,
   floatEnvValue env "BEDROCK_TOP_P",
   optIntEnvValue env "BEDROCK_TOP_K",
   listEnvValue env "BEDROCK_STOP",
   (_parse_bool_env env "BEDROCK_THINKING").getD false,
   intEnvValue env "BEDROCK_THINKING_BUDGET" 4096⟩

/-! ## Shared predicates and concrete inputs used by the claims -/

/-- A variable that is unset or blank (empty or whitespace-only): the
precondition of the spec's defaulting rules. -/
def blankVar (env : Env) (v : String) : Prop :=
  env v = none ∨ ∃ s, env v = some s ∧ pyStrip s = ""

/-- Environment with a whitespace-only `BEDROCK_RETRY_MODE` and everything
else unset. -/
def envRetryWs : Env := fun k => if k = "BEDROCK_RETRY_MODE" then some " " else none

/-- Environment with `BEDROCK_MAX_ATTEMPTS=0` and everything else unset. -/
def envZeroAttempts : Env := fun k => if k = "BEDROCK_MAX_ATTEMPTS" then some "0" else none

/-- Configuration record with a rate of 5 and a configured burst of 0. -/
def envBurstZero : BedrockEnv :=
  ⟨"adaptive", 3, 10, some (PyFloat.finite 5), some (PyFloat.finite 0), none,
   1024, none, none, none, false, 4096⟩

/-- Configuration record with thinking mode on and temperature 0.2,
top-p 0.5, top-k 40 supplied. -/
def envThinkingOn : BedrockEnv :=
  ⟨"adaptive", 3, 10, none, none, some (PyFloat.finite ((1 : Rat) / 5)), 1024,
   some (PyFloat.finite ((1 : Rat) / 2)), some 40, none, true, 4096⟩

/-- Configuration record with neither temperature nor top-p set. -/
def envSamplingUnset : BedrockEnv :=
  ⟨"adaptive", 3, 10, none, none, none, 1024, none, none, none, false, 4096⟩

/-- Configuration record with temperature 0.7 and top-p 0.9 both set. -/
def envSamplingBoth : BedrockEnv :=
  ⟨"adaptive", 3, 10, none, none, some (PyFloat.finite ((7 : Rat) / 10)), 1024,
   some (PyFloat.finite ((9 : Rat) / 10)), none, none, false, 4096⟩

/-- Configuration record with a rate of 5 and no configured burst. -/
def envRateOnly : BedrockEnv :=
  ⟨"adaptive", 3, 10, some (PyFloat.finite 5), none, none, 1024, none, none,
   none, false, 4096⟩

theorem parse_int_env_eq (env : Env) (v : String) (d : Int) :
    _parse_int_env env v d = Except.ok (intEnvValue env v d) := by
  unfold _parse_int_env intEnvValue pyInt
  cases env v with
  | none => rfl
  | some s =>
    by_cases h : pyStrip s = ""
    · simp [h]
    · simp only [h, if_false]
      cases pyIntOpt s <;> simp

theorem parse_optional_int_env_eq (env : Env) (v : String) :
    _parse_optional_int_env env v = Except.ok (optIntEnvValue env v) := by
  unfold _parse_optional_int_env optIntEnvValue pyInt
  cases env v with
  | none => rfl
  | some s =>
    by_cases h : pyStrip s = ""
    · simp [h]
    · simp only [h, if_false]
      cases pyIntOpt s <;> simp

theorem parse_float_env_eq (env : Env) (v : String) :
    _parse_float_env env v = Except.ok (floatEnvValue env v) := by
  unfold _parse_float_env floatEnvValue pyFloat
  cases env v with
  | none => rfl
  | some s =>
    by_cases h : pyStrip s = ""
    · simp [h]
    · simp only [h, if_false]
      cases pyFloatOpt s <;> simp

theorem json_loads_no_valueError (s : String) :
    json_loads s ≠ Except.error PyErr.valueError := by
  unfold json_loads
  cases parseJsonCore (2 * s.data.length + 4) JsonTask.value s.data with
  | none => simp
  | some p =>
    by_cases h : skipJsonWs p.2 = [] <;> simp [h]

theorem parse_list_env_eq (env : Env) (v : String) :
    _parse_list_env env v = Except.ok (listEnvValue env v) := by
  unfold _parse_list_env listEnvValue
  cases env v with
  | none => rfl
  | some s =>
    by_cases h : pyStrip s = ""
    · simp [h]
    · simp only [h, if_false]
      by_cases hp : hasPrefixChars (pyStrip s).data "[".data
      · simp only [hp, if_true]
        cases hj : json_loads (pyStrip s) with
        | ok data => cases h2 : asStrList data <;> simp [h2]
        | error e =>
          cases e with
          | valueError => exact absurd hj (json_loads_no_valueError _)
          | jsonDecodeError => simp
      · simp [hp]

theorem read_env_eq (env : Env) : _read_env env = Except.ok (readEnvFun env) := by
  unfold _read_env readEnvFun
  simp only [parse_int_env_eq, parse_float_env_eq, parse_optional_int_env_eq,
    parse_list_env_eq]
  rfl

/-! ## Lemmas about blank variables and parse outcomes -/

theorem pyIntOpt_of_blank {s : String} (h : pyStrip s = "") : pyIntOpt s = none := by
  have h2 : stripChars s.data = [] := congrArg String.data h
  simp [pyIntOpt, h2]

theorem intEnvValue_blank {env : Env} {v : String} {d : Int} (h : blankVar env v) :
    intEnvValue env v d = d := by
  rcases h with h | ⟨s, hs, hb⟩ <;> simp [intEnvValue, *]

theorem floatEnvValue_blank {env : Env} {v : String} (h : blankVar env v) :
    floatEnvValue env v = none := by
  rcases h with h | ⟨s, hs, hb⟩ <;> simp [floatEnvValue, *]

theorem optIntEnvValue_blank {env : Env} {v : String} (h : blankVar env v) :
    optIntEnvValue env v = none := by
  rcases h with h | ⟨s, hs, hb⟩ <;> simp [optIntEnvValue, *]

theorem listEnvValue_blank {env : Env} {v : String} (h : blankVar env v) :
    listEnvValue env v = none := by
  rcases h with h | ⟨s, hs, hb⟩ <;> simp [listEnvValue, *]

theorem parse_bool_env_blank {env : Env} {v : String} (h : blankVar env v) :
    _parse_bool_env env v = none := by
  rcases h with h | ⟨s, hs, hb⟩ <;> simp [_parse_bool_env, *]

theorem truthy_falsy_disjoint {t : String}
    (h1 : t ∈ (["1", "true", "yes", "on", "enabled"] : List String))
    (h2 : t ∈ (["0", "false", "no", "off", "disabled"] : List String)) : False := by
  simp only [List.mem_cons, List.not_mem_nil, or_false] at h1 h2
  rcases h1 with rfl | rfl | rfl | rfl | rfl <;> revert h2 <;> decide

theorem intEnvValue_cases (env : Env) (v : String) (d : Int) :
    intEnvValue env v d = d ∨
      ∃ s, env v = some s ∧ pyIntOpt s = some (intEnvValue env v d) := by
  unfold intEnvValue
  cases h : env v with
  | none => exact Or.inl rfl
  | some s =>
    by_cases hb : pyStrip s = ""
    · exact Or.inl (by simp [hb])
    · cases hi : pyIntOpt s with
      | none => exact Or.inl (by simp [hb, hi])
      | some n => exact Or.inr ⟨s, rfl, by simp [hb, hi]⟩

/-! ## The claims -/

/-- C2: for every environment — any assignment of strings to the recognised
variables, or their absence — the Environment Reader returns a fully
populated configuration record and never raises: `_read_env` always
produces `Except.ok`. -/
theorem claim_C2_reader_never_raises (env : Env) :
    ∃ r : BedrockEnv, _read_env env = Except.ok r :=
  ⟨readEnvFun env, read_env_eq env⟩

/-- C7: for every required integer field and every value of its variable,
unset or blank yields the passed default, a present value that is not a
valid integer literal yields the default, and a valid integer literal
yields the parsed integer; the four required integer fields of the record
are computed by this helper with their table defaults (`max_attempts` with
the default-aware fallback parse of `AWS_MAX_ATTEMPTS` as default). -/
theorem claim_C7_int_fields (env : Env) (v : String) (d : Int) :
    (env v = none → _parse_int_env env v d = Except.ok d)
    ∧ (∀ s, env v = some s → pyStrip s = "" → _parse_int_env env v d = Except.ok d)
    ∧ (∀ s, env v = some s → pyIntOpt s = none → _parse_int_env env v d = Except.ok d)
    ∧ (∀ s n, env v = some s → pyIntOpt s = some n → _parse_int_env env v d = Except.ok n)
    ∧ (∀ r, _read_env env = Except.ok r →
        ∃ a, _parse_int_env env "AWS_MAX_ATTEMPTS" 3 = Except.ok a
          ∧ _parse_int_env env "BEDROCK_MAX_ATTEMPTS" a = Except.ok r.max_attempts
          ∧ _parse_int_env env "BEDROCK_MAX_POOL_CONNECTIONS" 10 = Except.ok r.max_pool_connections
          ∧ _parse_int_env env "BEDROCK_MAX_TOKENS" 1024 = Except.ok r.max_tokens
          ∧ _parse_int_env env "BEDROCK_THINKING_BUDGET" 4096 = Except.ok r.thinking_budget) := by
  refine ⟨fun h => ?_, fun s hs hb => ?_, fun s hs hi => ?_, fun s n hs hi => ?_,
    fun r hr => ?_⟩
  · rw [parse_int_env_eq]; simp [intEnvValue, h]
  · rw [parse_int_env_eq]; simp [intEnvValue, hs, hb]
  · rw [parse_int_env_eq]
    by_cases hb : pyStrip s = ""
    · simp [intEnvValue, hs, hb]
    · simp [intEnvValue, hs, hb, hi]
  · rw [parse_int_env_eq]
    have hb : ¬ pyStrip s = "" := fun hb => by
      simp [pyIntOpt_of_blank hb] at hi
    simp [intEnvValue, hs, hb, hi]
  · rw [read_env_eq] at hr
    obtain rfl : readEnvFun env = r := Except.ok.inj hr
    exact ⟨intEnvValue env "AWS_MAX_ATTEMPTS" 3, parse_int_env_eq .., parse_int_env_eq ..,
      parse_int_env_eq .., parse_int_env_eq .., parse_int_env_eq ..⟩

/-- Witness for C7 at concrete inputs: a malformed value falls back to the
default 1024 and a well-formed value is parsed. -/
theorem claim_C7_int_fields_witness :
    _parse_int_env (fun k => if k = "BEDROCK_MAX_TOKENS" then some "oops" else none)
      "BEDROCK_MAX_TOKENS" 1024 = Except.ok 1024
    ∧ _parse_int_env (fun k => if k = "BEDROCK_MAX_TOKENS" then some "99" else none)
      "BEDROCK_MAX_TOKENS" 1024 = Except.ok 99 :=
  ⟨(claim_C7_int_fields (fun k => if k = "BEDROCK_MAX_TOKENS" then some "oops" else none)
      "BEDROCK_MAX_TOKENS" 1024).2.2.1 "oops" rfl rfl,
   (claim_C7_int_fields (fun k => if k = "BEDROCK_MAX_TOKENS" then some "99" else none)
      "BEDROCK_MAX_TOKENS" 1024).2.2.2.1 "99" 99 rfl rfl⟩

/-- C6: the optional boolean parse matches the stripped, lowered value
against the truthy set `{1, true, yes, on, enabled}` and the falsy set
`{0, false, no, off, disabled}`; anything else (including unset and blank)
yields `None`, and an absent optional boolean makes the `thinking_enabled`
field resolve to `false`, not to absent. -/
theorem claim_C6_thinking_bool (env : Env) (v : String) :
    (env v = none → _parse_bool_env env v = none)
    ∧ (∀ s, env v = some s → pyStrip s = "" → _parse_bool_env env v = none)
    ∧ (∀ s, env v = some s →
        pyLower (pyStrip s) ∈ (["1", "true", "yes", "on", "enabled"] : List String) →
        _parse_bool_env env v = some true)
    ∧ (∀ s, env v = some s →
        pyLower (pyStrip s) ∈ (["0", "false", "no", "off", "disabled"] : List String) →
        _parse_bool_env env v = some false)
    ∧ (∀ s, env v = some s →
        pyLower (pyStrip s) ∉ (["1", "true", "yes", "on", "enabled"] : List String) →
        pyLower (pyStrip s) ∉ (["0", "false", "no", "off", "disabled"] : List String) →
        _parse_bool_env env v = none)
    ∧ (∀ r, _read_env env = Except.ok r → _parse_bool_env env "BEDROCK_THINKING" = none →
        r.thinking_enabled = false) := by
  refine ⟨fun h => ?_, fun s hs hb => ?_, fun s hs ht => ?_, fun s hs hf => ?_,
    fun s hs ht hf => ?_, fun r hr hn => ?_⟩
  · simp [_parse_bool_env, h]
  · simp [_parse_bool_env, hs, hb]
  · have hb : ¬ pyStrip s = "" := by
      intro hb
      rw [hb] at ht
      exact absurd ht (by decide)
    simp [_parse_bool_env, hs, hb, ht]
  · have hb : ¬ pyStrip s = "" := by
      intro hb
      rw [hb] at hf
      exact absurd hf (by decide)
    have ht : pyLower (pyStrip s) ∉ (["1", "true", "yes", "on", "enabled"] : List String) :=
      fun ht => truthy_falsy_disjoint ht hf
    simp [_parse_bool_env, hs, hb, ht, hf]
  · by_cases hb : pyStrip s = ""
    · simp [_parse_bool_env, hs, hb]
    · simp [_parse_bool_env, hs, hb, ht, hf]
  · rw [read_env_eq] at hr
    obtain rfl : readEnvFun env = r := Except.ok.inj hr
    simp [readEnvFun, hn]

/-- Witness for C6 at concrete inputs: `"YES"` is truthy, `"off"` is falsy,
`"maybe"` is neither, and with `BEDROCK_THINKING=maybe` the record's
`thinking_enabled` is `false`. -/
theorem claim_C6_thinking_bool_witness :
    _parse_bool_env (fun _ => some "YES") "BEDROCK_THINKING" = some true
    ∧ _parse_bool_env (fun _ => some "off") "BEDROCK_THINKING" = some false
    ∧ _parse_bool_env (fun _ => some "maybe") "BEDROCK_THINKING" = none
    ∧ (readEnvFun (fun _ => some "maybe")).thinking_enabled = false :=
  ⟨(claim_C6_thinking_bool (fun _ => some "YES") "BEDROCK_THINKING").2.2.1 "YES" rfl
      (by decide),
   (claim_C6_thinking_bool (fun _ => some "off") "BEDROCK_THINKING").2.2.2.1 "off" rfl
      (by decide),
   (claim_C6_thinking_bool (fun _ => some "maybe") "BEDROCK_THINKING").2.2.2.2.1 "maybe" rfl
      (by decide) (by decide),
   (claim_C6_thinking_bool (fun _ => some "maybe") "BEDROCK_THINKING").2.2.2.2.2
      (readEnvFun (fun _ => some "maybe")) (read_env_eq _)
      ((claim_C6_thinking_bool (fun _ => some "maybe") "BEDROCK_THINKING").2.2.2.2.1 "maybe"
        rfl (by decide) (by decide))⟩

/-- C3: the stop-sequences variable is parsed as follows: unset or blank
yields absent; a stripped value starting with `[` goes through the JSON
decoder and is accepted exactly when it is an array of strings, otherwise
absent; any other value is split on `|` when one occurs, else on `,`, the
parts stripped, empty parts dropped, an empty result yielding absent; in
particular `"a,b,c"` and `"a|b|c"` both give `["a","b","c"]`,
`"[\"a\",\"b\"]"` gives `["a","b"]` and `"[1,2]"` gives absent. -/
theorem claim_C3_stop_sequences (env : Env) (v : String) :
    (env v = none → _parse_list_env env v = Except.ok none)
    ∧ (∀ s, env v = some s → pyStrip s = "" → _parse_list_env env v = Except.ok none)
    ∧ (∀ s xs l, env v = some s → pyStrip s ≠ "" →
        hasPrefixChars (pyStrip s).data "[".data = true →
        json_loads (pyStrip s) = Except.ok (Json.arr xs) → allStrings xs = some l →
        _parse_list_env env v = Except.ok (some l))
    ∧ (∀ s j, env v = some s → pyStrip s ≠ "" →
        hasPrefixChars (pyStrip s).data "[".data = true →
        json_loads (pyStrip s) = Except.ok j → asStrList j = none →
        _parse_list_env env v = Except.ok none)
    ∧ (∀ s er, env v = some s → pyStrip s ≠ "" →
        hasPrefixChars (pyStrip s).data "[".data = true →
        json_loads (pyStrip s) = Except.error er →
        _parse_list_env env v = Except.ok none)
    ∧ (∀ s, env v = some s → pyStrip s ≠ "" →
        hasPrefixChars (pyStrip s).data "[".data = false →
        _parse_list_env env v = Except.ok
          (if (if (pyStrip s).data.contains '|' then splitParts '|' (pyStrip s).data
               else splitParts ',' (pyStrip s).data) = [] then none
           else some (if (pyStrip s).data.contains '|' then splitParts '|' (pyStrip s).data
                      else splitParts ',' (pyStrip s).data)))
    ∧ _parse_list_env (fun _ => some "a,b,c") "BEDROCK_STOP" = Except.ok (some ["a", "b", "c"])
    ∧ _parse_list_env (fun _ => some "a|b|c") "BEDROCK_STOP" = Except.ok (some ["a", "b", "c"])
    ∧ _parse_list_env (fun _ => some "[\"a\",\"b\"]") "BEDROCK_STOP" = Except.ok (some ["a", "b"])
    ∧ _parse_list_env (fun _ => some "[1,2]") "BEDROCK_STOP" = Except.ok none := by
  refine ⟨fun h => ?_, fun s hs hb => ?_, fun s xs l hs hb hp hj ha => ?_,
    fun s j hs hb hp hj ha => ?_, fun s er hs hb hp hj => ?_, fun s hs hb hp => ?_,
    rfl, rfl, rfl, rfl⟩
  · rw [parse_list_env_eq]; simp [listEnvValue, h]
  · rw [parse_list_env_eq]; simp [listEnvValue, hs, hb]
  · rw [parse_list_env_eq]
    simp [listEnvValue, hs, hb, hp, hj, asStrList, ha]
  · rw [parse_list_env_eq]
    simp [listEnvValue, hs, hb, hp, hj, ha]
  · rw [parse_list_env_eq]
    simp [listEnvValue, hs, hb, hp, hj]
  · rw [parse_list_env_eq]
    simp [listEnvValue, hs, hb, hp]

/-- Witness for C3 at a concrete input: `BEDROCK_STOP=" x | | y "` has no
JSON prefix, contains a pipe, and splits to `["x", "y"]` with the empty
part dropped. -/
theorem claim_C3_stop_sequences_witness :
    _parse_list_env (fun _ => some " x | | y ") "BEDROCK_STOP" =
      Except.ok (some ["x", "y"]) :=
  (claim_C3_stop_sequences (fun _ => some " x | | y ") "BEDROCK_STOP").2.2.2.2.2.1
    " x | | y " rfl (by decide) (by decide)

/-- C10: when the stripped value starts with `[` and decodes as a JSON array
of strings, the list is returned exactly as decoded: `"[]"` yields the
empty list (not absent) and empty or whitespace-only string elements are
kept, unlike the delimiter branch, which drops empty parts and yields
absent when nothing remains. -/
theorem claim_C10_json_branch_exact (env : Env) (v : String) :
    (∀ s xs l, env v = some s → pyStrip s ≠ "" →
        hasPrefixChars (pyStrip s).data "[".data = true →
        json_loads (pyStrip s) = Except.ok (Json.arr xs) → allStrings xs = some l →
        _parse_list_env env v = Except.ok (some l))
    ∧ _parse_list_env (fun _ => some "[]") "BEDROCK_STOP" = Except.ok (some [])
    ∧ _parse_list_env (fun _ => some "[\"\", \" \"]") "BEDROCK_STOP" =
        Except.ok (some ["", " "])
    ∧ _parse_list_env (fun _ => some ",,") "BEDROCK_STOP" = Except.ok none
    ∧ _parse_list_env (fun _ => some " , ") "BEDROCK_STOP" = Except.ok none := by
  refine ⟨fun s xs l hs hb hp hj ha => ?_, rfl, rfl, rfl, rfl⟩
  rw [parse_list_env_eq]
  simp [listEnvValue, hs, hb, hp, hj, asStrList, ha]

/-- Witness for C10 at a concrete input: a JSON array holding a single
empty string is returned as `[""]`. -/
theorem claim_C10_json_branch_exact_witness :
    _parse_list_env (fun _ => some "[\"\"]") "BEDROCK_STOP" = Except.ok (some [""]) :=
  (claim_C10_json_branch_exact (fun _ => some "[\"\"]") "BEDROCK_STOP").1
    "[\"\"]" [Json.str ""] [""] rfl (by decide) (by decide) rfl rfl

theorem pyLowerChar_colon {c : Char} (h : pyLowerChar c = ':') : c = ':' := by
  unfold pyLowerChar at h
  split at h <;> first | assumption | exact absurd h (by decide)

theorem pyLowerChar_ne_colon {c : Char} {t : Char} (h : pyLowerChar c = t)
    (ht : t ≠ ':') : c ≠ ':' := by
  intro e
  apply ht
  rw [e] at h
  rw [← h]
  rfl

theorem split_colon_of_bedrock_prefix (cs : List Char)
    (h : hasPrefixChars (cs.map pyLowerChar)
      ['b', 'e', 'd', 'r', 'o', 'c', 'k', ':'] = true) :
    ∃ pre, pySplitFirst ':' cs = some (pre, cs.drop 8) := by
  rcases cs with _ | ⟨c0, _ | ⟨c1, _ | ⟨c2, _ | ⟨c3, _ | ⟨c4, _ | ⟨c5, _ | ⟨c6, _ | ⟨c7, rest⟩⟩⟩⟩⟩⟩⟩⟩ <;>
    simp only [List.map, hasPrefixChars, Bool.and_eq_true, Bool.and_true,
      Bool.false_eq_true, decide_eq_true_eq, and_false, false_and] at h
  obtain ⟨h0, h1, h2, h3, h4, h5, h6, h7⟩ := h
  obtain rfl : c7 = ':' := pyLowerChar_colon h7
  have n0 : c0 ≠ ':' := pyLowerChar_ne_colon h0 (by decide)
  have n1 : c1 ≠ ':' := pyLowerChar_ne_colon h1 (by decide)
  have n2 : c2 ≠ ':' := pyLowerChar_ne_colon h2 (by decide)
  have n3 : c3 ≠ ':' := pyLowerChar_ne_colon h3 (by decide)
  have n4 : c4 ≠ ':' := pyLowerChar_ne_colon h4 (by decide)
  have n5 : c5 ≠ ':' := pyLowerChar_ne_colon h5 (by decide)
  have n6 : c6 ≠ ':' := pyLowerChar_ne_colon h6 (by decide)
  exact ⟨[c0, c1, c2, c3, c4, c5, c6],
    by simp [pySplitFirst, n0, n1, n2, n3, n4, n5, n6, List.drop]⟩

/-- C8: a model name whose lowered form starts with `"bedrock:"` maps to
the remainder after that eight-character prefix, and any other name is
used verbatim; in particular the two identifiers of the spec normalise as
stated. -/
theorem claim_C8_model_id (s : String) :
    (hasPrefixChars (s.data.map pyLowerChar) "bedrock:".data = true →
      _normalize_model_id s = ⟨s.data.drop 8⟩)
    ∧ (hasPrefixChars (s.data.map pyLowerChar) "bedrock:".data = false →
      _normalize_model_id s = s)
    ∧ _normalize_model_id "bedrock:us.anthropic.claude-sonnet-4-5-20250929-v1:0" =
        "us.anthropic.claude-sonnet-4-5-20250929-v1:0"
    ∧ _normalize_model_id "us.anthropic.claude-3" = "us.anthropic.claude-3" := by
  refine ⟨fun h => ?_, fun h => ?_, by decide, by decide⟩
  · have h' : hasPrefixChars (s.data.map pyLowerChar)
        ['b', 'e', 'd', 'r', 'o', 'c', 'k', ':'] = true := by
      rw [show ['b', 'e', 'd', 'r', 'o', 'c', 'k', ':'] = "bedrock:".data from rfl]
      exact h
    obtain ⟨pre, hsp⟩ := split_colon_of_bedrock_prefix s.data h'
    unfold _normalize_model_id
    rw [if_pos h, hsp]
  · unfold _normalize_model_id
    rw [if_neg]
    simp [h]

/-- Witness for C8 at concrete inputs: an upper-case prefix is stripped and
a prefix-free name passes through. -/
theorem claim_C8_model_id_witness :
    _normalize_model_id "BEDROCK:m:x" = ⟨("BEDROCK:m:x".data.drop 8)⟩
    ∧ _normalize_model_id "plain" = "plain" :=
  ⟨(claim_C8_model_id "BEDROCK:m:x").1 (by decide),
   (claim_C8_model_id "plain").2.1 (by decide)⟩

/-- C1: the builder resolves sampling conflicts in order: with thinking mode
off, both temperature and top-p unset gives temperature 0.3 with top-p
absent, and both set keeps the configured temperature and discards top-p;
with thinking mode on, temperature is forced to 1.0, top-p and top-k are
discarded, and the extra-parameters map carries a thinking descriptor with
the configured budget. -/
theorem claim_C1_conflict_resolution (e : BedrockEnv) (mn : String) :
    (e.thinking_enabled = false → e.temperature = none → e.top_p = none →
      (_build_chat_bedrock e mn).temperature = some (PyFloat.finite ((3 : Rat) / 10))
      ∧ (_build_chat_bedrock e mn).kw_top_p = none)
    ∧ (e.thinking_enabled = false → e.temperature ≠ none → e.top_p ≠ none →
      (_build_chat_bedrock e mn).temperature = e.temperature
      ∧ (_build_chat_bedrock e mn).kw_top_p = none)
    ∧ (e.thinking_enabled = true →
      (_build_chat_bedrock e mn).temperature = some (PyFloat.finite 1)
      ∧ (_build_chat_bedrock e mn).kw_top_p = none
      ∧ (_build_chat_bedrock e mn).kw_top_k = none
      ∧ (_build_chat_bedrock e mn).kw_thinking = some ⟨"enabled", e.thinking_budget⟩) := by
  refine ⟨fun ht h1 h2 => ?_, fun ht h1 h2 => ?_, fun ht => ?_⟩
  · cases hk : e.top_k <;>
      simp [_build_chat_bedrock, ChatBedrock.kw_top_p, ModelKwargs.isEmpty,
        ht, h1, h2, hk]
  · obtain ⟨t, h1⟩ := Option.ne_none_iff_exists'.mp h1
    obtain ⟨p, h2⟩ := Option.ne_none_iff_exists'.mp h2
    cases hk : e.top_k <;>
      simp [_build_chat_bedrock, ChatBedrock.kw_top_p, ModelKwargs.isEmpty,
        ht, h1, h2, hk]
  · simp [_build_chat_bedrock, ChatBedrock.kw_top_p, ChatBedrock.kw_top_k,
      ChatBedrock.kw_thinking, ModelKwargs.isEmpty, ht]

/-- Witness for C1 at the spec's three scenarios: both unset, both set
(0.7 and 0.9), and thinking mode on with 0.2, 0.5 and 40 supplied. -/
theorem claim_C1_conflict_resolution_witness :
    ((_build_chat_bedrock envSamplingUnset "m").temperature =
        some (PyFloat.finite ((3 : Rat) / 10))
      ∧ (_build_chat_bedrock envSamplingUnset "m").kw_top_p = none)
    ∧ ((_build_chat_bedrock envSamplingBoth "m").temperature = envSamplingBoth.temperature
      ∧ (_build_chat_bedrock envSamplingBoth "m").kw_top_p = none)
    ∧ ((_build_chat_bedrock envThinkingOn "m").temperature = some (PyFloat.finite 1)
      ∧ (_build_chat_bedrock envThinkingOn "m").kw_top_p = none
      ∧ (_build_chat_bedrock envThinkingOn "m").kw_top_k = none
      ∧ (_build_chat_bedrock envThinkingOn "m").kw_thinking =
          some ⟨"enabled", envThinkingOn.thinking_budget⟩) :=
  ⟨(claim_C1_conflict_resolution envSamplingUnset "m").1 rfl rfl rfl,
   (claim_C1_conflict_resolution envSamplingBoth "m").2.1 rfl
     (fun h => nomatch h) (fun h => nomatch h),
   (claim_C1_conflict_resolution envThinkingOn "m").2.2 rfl⟩

/-- Counterexample to C4 as stated: with a rate of 5 and a configured burst
of 0, the limiter's burst capacity is 5, not the configured burst 0 — a
configured but falsy burst is replaced by the rate (`max_bucket_size or
requests_per_second`), while the claim allows the rate only when the burst
field is unset. -/
theorem claim_C4_counterexample :
    envBurstZero.max_bucket_size = some (PyFloat.finite 0)
    ∧ (_build_chat_bedrock envBurstZero "m").rate_limiter =
        some ⟨PyFloat.finite 5, PyFloat.finite 5⟩
    ∧ PyFloat.finite 5 ≠ PyFloat.finite 0 :=
  ⟨rfl, rfl, by decide⟩

/-- C4 (amended): a rate limiter is constructed iff the requests-per-second
field is set; its rate is then the configured requests-per-second, and its
burst capacity is the configured burst when that is set and truthy
(non-zero), and the rate itself when the burst field is unset or zero. -/
theorem claim_C4_rate_limiter_amended (e : BedrockEnv) (mn : String) :
    ((_build_chat_bedrock e mn).rate_limiter = none ↔ e.requests_per_second = none)
    ∧ (∀ r, e.requests_per_second = some r →
        (_build_chat_bedrock e mn).rate_limiter = some ⟨r, pyOrFloat e.max_bucket_size r⟩)
    ∧ (∀ r b, e.requests_per_second = some r → e.max_bucket_size = some b →
        pyTruthy b = true →
        (_build_chat_bedrock e mn).rate_limiter = some ⟨r, b⟩)
    ∧ (∀ r, e.requests_per_second = some r →
        (e.max_bucket_size = none ∨ e.max_bucket_size = some (PyFloat.finite 0)) →
        (_build_chat_bedrock e mn).rate_limiter = some ⟨r, r⟩) := by
  refine ⟨?_, fun r hr => ?_, fun r b hr hb htr => ?_, fun r hr hb => ?_⟩
  · cases hr : e.requests_per_second <;>
      simp [_build_chat_bedrock, hr]
  · simp [_build_chat_bedrock, hr]
  · simp [_build_chat_bedrock, hr, hb, pyOrFloat, htr]
  · rcases hb with hb | hb <;> simp [_build_chat_bedrock, hr, hb, pyOrFloat, pyTruthy]

/-- Witness for C4 (amended) at concrete records: no limiter without a rate,
and rate 5 with burst unset gives burst 5. -/
theorem claim_C4_rate_limiter_amended_witness :
    ((_build_chat_bedrock envSamplingUnset "m").rate_limiter = none)
    ∧ (_build_chat_bedrock envRateOnly "m").rate_limiter =
        some ⟨PyFloat.finite 5, PyFloat.finite 5⟩ :=
  ⟨(claim_C4_rate_limiter_amended envSamplingUnset "m").1.mpr rfl,
   (claim_C4_rate_limiter_amended envRateOnly "m").2.2.2 (PyFloat.finite 5) rfl
     (Or.inl rfl)⟩

/-- Counterexample to C9 as stated: with `BEDROCK_MAX_ATTEMPTS=0` the reader
produces `max_attempts = 0`, which is not positive — the code stores any
valid integer literal without a positivity check. -/
theorem claim_C9_counterexample :
    _read_env envZeroAttempts =
      Except.ok ⟨"adaptive", 0, 10, none, none, none, 1024, none, none, none, false, 4096⟩
    ∧ ¬ (0 : Int) > 0 :=
  ⟨rfl, by decide⟩

/-- C9 (amended): the max-attempts and pool-size fields are positive in
every environment whose values for those variables, when they parse as
integer literals at all, are positive — in particular they fall back to
the positive defaults 3 and 10 on unset, blank or malformed input; a
supplied non-positive literal, however, is stored as-is. -/
theorem claim_C9_positive_amended (env : Env) (r : BedrockEnv)
    (hr : _read_env env = Except.ok r)
    (h1 : ∀ s n, env "BEDROCK_MAX_ATTEMPTS" = some s → pyIntOpt s = some n → 0 < n)
    (h2 : ∀ s n, env "AWS_MAX_ATTEMPTS" = some s → pyIntOpt s = some n → 0 < n)
    (h3 : ∀ s n, env "BEDROCK_MAX_POOL_CONNECTIONS" = some s → pyIntOpt s = some n → 0 < n) :
    0 < r.max_attempts ∧ 0 < r.max_pool_connections := by
  rw [read_env_eq] at hr
  obtain rfl : readEnvFun env = r := Except.ok.inj hr
  constructor
  · show (0 : Int) < intEnvValue env "BEDROCK_MAX_ATTEMPTS" (intEnvValue env "AWS_MAX_ATTEMPTS" 3)
    rcases intEnvValue_cases env "BEDROCK_MAX_ATTEMPTS" (intEnvValue env "AWS_MAX_ATTEMPTS" 3) with
      h | ⟨s, hs, hi⟩
    · rw [h]
      rcases intEnvValue_cases env "AWS_MAX_ATTEMPTS" 3 with h' | ⟨s, hs, hi⟩
      · rw [h']; decide
      · exact h2 s _ hs hi
    · exact h1 s _ hs hi
  · show (0 : Int) < intEnvValue env "BEDROCK_MAX_POOL_CONNECTIONS" 10
    rcases intEnvValue_cases env "BEDROCK_MAX_POOL_CONNECTIONS" 10 with h | ⟨s, hs, hi⟩
    · rw [h]; decide
    · exact h3 s _ hs hi

/-- Witness for C9 (amended) at the empty environment: both fields are the
positive defaults. -/
theorem claim_C9_positive_amended_witness :
    0 < (readEnvFun (fun _ => none)).max_attempts
    ∧ 0 < (readEnvFun (fun _ => none)).max_pool_connections :=
  claim_C9_positive_amended (fun _ => none) (readEnvFun (fun _ => none)) (read_env_eq _)
    (fun _ _ h => nomatch h) (fun _ _ h => nomatch h) (fun _ _ h => nomatch h)

/-- Counterexample to C5 as stated: `BEDROCK_RETRY_MODE=" "` is blank
(whitespace-only) and `AWS_RETRY_MODE` is unset, so the claim requires the
table default `"adaptive"`; the code's `or`-chain treats only `None` and
the empty string as absent, keeps the whitespace-only value, and produces
`retry_mode = " "`. -/
theorem claim_C5_counterexample :
    pyStrip " " = ""
    ∧ _read_env envRetryWs =
        Except.ok ⟨" ", 3, 10, none, none, none, 1024, none, none, none, false, 4096⟩
    ∧ (" " : String) ≠ "adaptive" :=
  ⟨rfl, rfl, by decide⟩

/-- C5 (amended): with every source variable unset or blank, each optional
field resolves to absent and each required field to its table default, and
a blank `BEDROCK_MAX_ATTEMPTS` defers to the default-aware parse of
`AWS_MAX_ATTEMPTS`; for `retry_mode`, however, only an unset or empty
(not whitespace-only) primary defers to the fallback, and the fallback's
raw value is used with the default `"adaptive"` applied only when the
fallback is unset. -/
theorem claim_C5_blank_defaults (env : Env) (r : BedrockEnv)
    (hr : _read_env env = Except.ok r) :
    (blankVar env "DEEPAGENTS_BEDROCK_RPS" → r.requests_per_second = none)
    ∧ (blankVar env "DEEPAGENTS_BEDROCK_BURST" → r.max_bucket_size = none)
    ∧ (blankVar env "BEDROCK_TEMPERATURE" → r.temperature = none)
    ∧ (blankVar env "BEDROCK_TOP_P" → r.top_p = none)
    ∧ (blankVar env "BEDROCK_TOP_K" → r.top_k = none)
    ∧ (blankVar env "BEDROCK_STOP" → r.stop_sequences = none)
    ∧ (blankVar env "BEDROCK_THINKING" → r.thinking_enabled = false)
    ∧ (blankVar env "BEDROCK_MAX_POOL_CONNECTIONS" → r.max_pool_connections = 10)
    ∧ (blankVar env "BEDROCK_MAX_TOKENS" → r.max_tokens = 1024)
    ∧ (blankVar env "BEDROCK_THINKING_BUDGET" → r.thinking_budget = 4096)
    ∧ (blankVar env "BEDROCK_MAX_ATTEMPTS" →
        r.max_attempts = intEnvValue env "AWS_MAX_ATTEMPTS" 3)
    ∧ (blankVar env "BEDROCK_MAX_ATTEMPTS" → blankVar env "AWS_MAX_ATTEMPTS" →
        r.max_attempts = 3)
    ∧ ((env "BEDROCK_RETRY_MODE" = none ∨ env "BEDROCK_RETRY_MODE" = some "") →
        r.retry_mode = (env "AWS_RETRY_MODE").getD "adaptive")
    ∧ ((env "BEDROCK_RETRY_MODE" = none ∨ env "BEDROCK_RETRY_MODE" = some "") →
        env "AWS_RETRY_MODE" = none → r.retry_mode = "adaptive") := by
  rw [read_env_eq] at hr
  obtain rfl : readEnvFun env = r := Except.ok.inj hr
  refine ⟨fun h => floatEnvValue_blank h, fun h => floatEnvValue_blank h,
    fun h => floatEnvValue_blank h, fun h => floatEnvValue_blank h,
    fun h => optIntEnvValue_blank h, fun h => listEnvValue_blank h,
    fun h => ?_, fun h => intEnvValue_blank h, fun h => intEnvValue_blank h,
    fun h => intEnvValue_blank h, fun h => intEnvValue_blank h,
    fun h h' => ?_, fun h => ?_, fun h h' => ?_⟩
  · show (_parse_bool_env env "BEDROCK_THINKING").getD false = false
    rw [parse_bool_env_blank h]
    rfl
  · show intEnvValue env "BEDROCK_MAX_ATTEMPTS" (intEnvValue env "AWS_MAX_ATTEMPTS" 3) = 3
    rw [intEnvValue_blank h, intEnvValue_blank h']
  · show pyOrStr (env "BEDROCK_RETRY_MODE") ((env "AWS_RETRY_MODE").getD "adaptive") =
      (env "AWS_RETRY_MODE").getD "adaptive"
    rcases h with h | h <;> simp [pyOrStr, h]
  · show pyOrStr (env "BEDROCK_RETRY_MODE") ((env "AWS_RETRY_MODE").getD "adaptive") =
      "adaptive"
    rcases h with h | h <;> simp [pyOrStr, h, h']

/-- Witness for C5 (amended) at the empty environment: every optional field
is absent and every required field carries its table default. -/
theorem claim_C5_blank_defaults_witness :
    (readEnvFun (fun _ => none)).requests_per_second = none
    ∧ (readEnvFun (fun _ => none)).temperature = none
    ∧ (readEnvFun (fun _ => none)).stop_sequences = none
    ∧ (readEnvFun (fun _ => none)).thinking_enabled = false
    ∧ (readEnvFun (fun _ => none)).max_tokens = 1024
    ∧ (readEnvFun (fun _ => none)).max_attempts = 3
    ∧ (readEnvFun (fun _ => none)).retry_mode = "adaptive" :=
  ⟨(claim_C5_blank_defaults (fun _ => none) _ (read_env_eq _)).1 (Or.inl rfl),
   (claim_C5_blank_defaults (fun _ => none) _ (read_env_eq _)).2.2.1 (Or.inl rfl),
   (claim_C5_blank_defaults (fun _ => none) _ (read_env_eq _)).2.2.2.2.2.1 (Or.inl rfl),
   (claim_C5_blank_defaults (fun _ => none) _ (read_env_eq _)).2.2.2.2.2.2.1 (Or.inl rfl),
   (claim_C5_blank_defaults (fun _ => none) _ (read_env_eq _)).2.2.2.2.2.2.2.2.1 (Or.inl rfl),
   (claim_C5_blank_defaults (fun _ => none) _ (read_env_eq _)).2.2.2.2.2.2.2.2.2.2.2.1
     (Or.inl rfl) (Or.inl rfl),
   (claim_C5_blank_defaults (fun _ => none) _ (read_env_eq _)).2.2.2.2.2.2.2.2.2.2.2.2.2
     (Or.inl rfl) rfl⟩

end BedrockProvider
